import Mathlib

/-!
# Authenticated Request Gateway — shallow embedding

This file embeds the token-refresh / authenticated-request core of the
point-of-sale client (`src/lib/api.ts` and the credential-store mutators of
`src/contexts/AuthContext.tsx`) and proves the spec's claims about it.

Modelling conventions:

* The browser's `localStorage` keys `accessToken`, `refreshToken`, `user` are
  the `Store` record; a `none` field means the key is absent.
* JavaScript truthiness of `localStorage.getItem` results (`null` or the empty
  string are falsy) is `falsyStr`.  The source guards `if (!accessToken)`,
  `if (!refreshToken)`, `if (accessToken)` all use this notion, so a claim's
  "token present" is embedded as the stored option being non-falsy.
* `JSON.parse(atob(token.split('.')[1]))` is an external browser facility; it
  is embedded as the oracle `Env.decode : String → Option Payload` (`none`
  when the expression throws).  A payload's `exp` claim may be absent
  (`Payload.exp = none`); the source computes `payload.exp * 1000` which is
  `NaN` for an absent claim, and `NaN - now < 300000` is `false` — this JS
  semantics is captured in `isStale`.
* The two `fetch` calls are embedded as oracles: `Env.refreshOutcome` gives
  the behaviour of `POST {base}/token/refresh/` for a given refresh token
  (2xx with an `access` field, non-2xx, or a rejected promise), and
  `ms : Nat → Nat` gives the HTTP status of the n-th main-request attempt.
  URL concatenation (`API_BASE_URL`, `url.startsWith('http')`) carries no
  logic relevant to the claims and is not modelled.
* Every observable action is logged in order in a `List Ev` trace:
  entering token resolution, issuing the refresh call, persisting the access
  token, clearing the whole credential set, the `window.location.href`
  redirect, and issuing the main request with its attached bearer token.
* `Date.now()` is the fixed `Env.now` for the duration of one `send`
  invocation.
-/

/-- The Session Credential Set held in `localStorage`:
`accessToken`, `refreshToken`, `user` (each `none` when the key is absent). -/
structure Store where
  accessToken : Option String
  refreshToken : Option String
  user : Option String
deriving Repr, DecidableEq

/-- The decoded JWT payload, as far as the source consults it: only the
`exp` claim (seconds since epoch), which may be absent. -/
structure Payload where
  exp : Option Int
deriving Repr, DecidableEq

/-- Outcome of the `POST {base}/token/refresh/` call:
2xx with a JSON body carrying `access`, a non-2xx response, or a rejected
promise (network-level transport failure). -/
inductive RefreshOutcome
  | ok (access : String)
  | fail
  | netError
deriving Repr, DecidableEq

/-- Outcome of `POST {base}/login/`: 2xx with `{access, refresh, user}`,
a non-2xx response, or a rejected promise. -/
inductive LoginOutcome
  | ok (access : String) (refresh : String) (userRec : String)
  | fail
  | netError
deriving Repr, DecidableEq

/-- The environment of one `send` invocation: the payload decoder
(`JSON.parse(atob(·.split('.')[1]))`, `none` when that throws), the current
time `Date.now()` in milliseconds, and the refresh endpoint's behaviour. -/
structure Env where
  decode : String → Option Payload
  now : Int
  refreshOutcome : String → RefreshOutcome

/-- Observable events, in program order: entering token resolution, the
refresh call (with the refresh token sent), `localStorage.setItem('accessToken', ·)`,
removal of all three credential keys, assignment to `window.location.href`,
and the main `fetch` with the attached bearer token (`none` when
`requireAuth` is false and no credential is attached). -/
inductive Ev
  | resolve
  | refresh (tok : String)
  | setAccess (tok : String)
  | clearAll
  | redirect
  | request (bearer : Option String)
deriving Repr, DecidableEq

/-- Result of `apiRequest`: a resolved `Response` with its status, or the
rejection `throw new Error('No access token')`. -/
inductive ApiResult
  | response (status : Nat)
  | thrown
deriving Repr, DecidableEq

/-- JavaScript truthiness of a `localStorage.getItem` result: `null` and the
empty string are falsy. -/
def falsyStr : Option String → Bool
  | none => true
  | some s => s == ""

/-- The proactive-refresh threshold: `300000` ms (5 minutes), from
`if (exp - now < 300000)`. -/
def threshold : Int := 300000

/-- `exp * 1000 - now < 300000` with JS number semantics: when the `exp`
claim is absent, `payload.exp * 1000` is `NaN` and the comparison is
`false`. -/
def isStale (p : Payload) (now : Int) : Bool :=
  match p.exp with
  | some e => e * 1000 - now < threshold
  | none => false

/-- The store after `localStorage.removeItem` of all three credential keys. -/
def clearedStore : Store := ⟨none, none, none⟩

/-- Embedding of `getValidAccessToken` (src/lib/api.ts lines 7–46).
Returns the resolved token (`none` = resolution failed), the store after the
call, and the trace of observable events.  The `try` block spans the decode
AND the refresh `fetch`, so a rejected refresh call lands in the same
`catch { return accessToken }` as a decode failure. -/
def getValidAccessToken (env : Env) (s : Store) : Option String × Store × List Ev :=
  match s.accessToken with
  | none => (none, s, [.resolve])
  | some access =>
    if access = "" then (none, s, [.resolve])
    else
      match env.decode access with
      | none => (some access, s, [.resolve])
      | some payload =>
        if isStale payload env.now then
          match s.refreshToken with
          | none => (none, s, [.resolve])
          | some refresh =>
            if refresh = "" then (none, s, [.resolve])
            else
              match env.refreshOutcome refresh with
              | .ok newAccess =>
                  (some newAccess, { s with accessToken := some newAccess },
                   [.resolve, .refresh refresh, .setAccess newAccess])
              | .fail =>
                  (none, clearedStore,
                   [.resolve, .refresh refresh, .clearAll, .redirect])
              | .netError =>
                  (some access, s, [.resolve, .refresh refresh])
        else (some access, s, [.resolve])

/-- Embedding of `apiRequest` (src/lib/api.ts lines 48–85) at a fixed
`requireAuth`.  `ms n` is the status of the (n+1)-th main-request attempt.
Returns the result, the final store, and the full event trace. -/
def apiRequest (env : Env) (ms : Nat → Nat) (requireAuth : Bool) (s : Store) :
    ApiResult × Store × List Ev :=
  if requireAuth then
    match getValidAccessToken env s with
    | (some tok, s1, evs1) =>
      if tok = "" then (.thrown, s1, evs1 ++ [.redirect])
      else
        if ms 0 = 401 then
          match getValidAccessToken env s1 with
          | (some tok2, s2, evs2) =>
            if tok2 = "" then
              (.response 401, s2, evs1 ++ [.request (some tok)] ++ evs2)
            else
              (.response (ms 1), s2,
               evs1 ++ [.request (some tok)] ++ evs2 ++ [.request (some tok2)])
          | (none, s2, evs2) =>
            (.response 401, s2, evs1 ++ [.request (some tok)] ++ evs2)
        else (.response (ms 0), s1, evs1 ++ [.request (some tok)])
    | (none, s1, evs1) => (.thrown, s1, evs1 ++ [.redirect])
  else (.response (ms 0), s, [.request none])

/-- Embedding of `login` (src/contexts/AuthContext.tsx lines 43–101) as a
store transformer: on a 2xx response all three keys are written together;
on a non-2xx response or a thrown error the store is untouched.  The `Bool`
is the `success` field of the returned record. -/
def login : LoginOutcome → Store → Store × Bool
  | .ok a r u, _ => (⟨some a, some r, some u⟩, true)
  | .fail, s => (s, false)
  | .netError, s => (s, false)

/-- Embedding of `logout` (src/contexts/AuthContext.tsx lines 149–166):
all three credential keys are removed. -/
def logout (_ : Store) : Store := clearedStore

/-- Embedding of the background `refreshToken` cycle
(src/contexts/AuthContext.tsx lines 103–147): absent/empty refresh token
leaves the store untouched; a 2xx refresh overwrites only the access token;
a non-2xx response or a rejected promise lands in the `catch`, which removes
all three keys. -/
def refreshToken (outcome : String → RefreshOutcome) (s : Store) : Store × Bool :=
  match s.refreshToken with
  | none => (s, false)
  | some r =>
    if r = "" then (s, false)
    else
      match outcome r with
      | .ok a => ({ s with accessToken := some a }, true)
      | .fail => (clearedStore, false)
      | .netError => (clearedStore, false)

/-- The data-model invariant of §3: access and refresh tokens are both
present (key exists) or both absent. -/
def paired (s : Store) : Prop := s.accessToken.isSome = s.refreshToken.isSome

/-- C3: with `requireAuth = true` and no access token present in the store,
`apiRequest` issues zero network requests (the trace holds no `refresh` and
no `request` event), rejects with the thrown `No access token` error, and
redirects to the sign-in view. -/
theorem C3_no_token_rejects_without_network
    (env : Env) (ms : Nat → Nat) (s : Store)
    (h : falsyStr s.accessToken = true) :
    apiRequest env ms true s = (.thrown, s, [.resolve, .redirect]) := by
  cases ha : s.accessToken with
  | none => simp [apiRequest, getValidAccessToken, ha]
  | some a =>
    have : a = "" := by
      rw [ha] at h
      simpa [falsyStr] using h
    subst this
    simp [apiRequest, getValidAccessToken, ha]

/-- Witness for C3 at the empty store. -/
theorem C3_witness :
    falsyStr (Store.accessToken ⟨none, none, none⟩) = true ∧
    apiRequest ⟨fun _ => none, 0, fun _ => .fail⟩ (fun _ => 200) true ⟨none, none, none⟩ =
      (.thrown, ⟨none, none, none⟩, [.resolve, .redirect]) :=
  ⟨by decide,
   C3_no_token_rejects_without_network ⟨fun _ => none, 0, fun _ => .fail⟩
     (fun _ => 200) ⟨none, none, none⟩ (by decide)⟩

/-- Shared shape of the fresh-token claims: the main request is issued with
`a` attached unchanged as the bearer credential, the store is untouched, the
refresh endpoint is never called; on a 401 first response the single retry
re-resolves the same token and reissues once. -/
def attachesUnchangedNoRefresh (env : Env) (ms : Nat → Nat) (s : Store) (a : String) : Prop :=
  (∀ tok, Ev.refresh tok ∉ (apiRequest env ms true s).2.2) ∧
  (apiRequest env ms true s = (.response (ms 0), s, [.resolve, .request (some a)]) ∨
   (ms 0 = 401 ∧ apiRequest env ms true s =
     (.response (ms 1), s,
      [.resolve, .request (some a), .resolve, .request (some a)])))

lemma gvat_stable (env : Env) (s : Store) (a : String)
    (ha : s.accessToken = some a) (ha' : a ≠ "")
    (h : ∀ p, env.decode a = some p → isStale p env.now = false) :
    getValidAccessToken env s = (some a, s, [.resolve]) := by
  cases hd : env.decode a with
  | none => simp [getValidAccessToken, ha, ha', hd]
  | some p => simp [getValidAccessToken, ha, ha', hd, h p hd]

lemma apiRequest_of_stable (env : Env) (ms : Nat → Nat) (s : Store) (a : String)
    (hg : getValidAccessToken env s = (some a, s, [.resolve])) (ha' : a ≠ "") :
    attachesUnchangedNoRefresh env ms s a := by
  constructor
  · intro tok
    by_cases h401 : ms 0 = 401 <;> simp [apiRequest, hg, ha', h401]
  · by_cases h401 : ms 0 = 401
    · right
      exact ⟨h401, by simp [apiRequest, hg, ha', h401]⟩
    · left
      simp [apiRequest, hg, ha', h401]

/-- C5: a stored access token whose decoded `exp` is more than 5 minutes in
the future is attached unchanged as the bearer credential and the refresh
endpoint is never called. -/
theorem C5_fresh_token_attached_unchanged
    (env : Env) (ms : Nat → Nat) (s : Store) (a : String) (p : Payload) (e : Int)
    (ha : s.accessToken = some a) (ha' : a ≠ "")
    (hd : env.decode a = some p) (he : p.exp = some e)
    (hfresh : threshold < e * 1000 - env.now) :
    attachesUnchangedNoRefresh env ms s a := by
  refine apiRequest_of_stable env ms s a (gvat_stable env s a ha ha' ?_) ha'
  intro q hq
  rw [hd] at hq
  cases hq
  simp [isStale, he]
  omega

/-- Witness for C5: a token expiring one hour from now. -/
theorem C5_witness :
    (Store.accessToken ⟨some "tok", some "r", some "u"⟩ = some "tok") ∧
    (Env.decode ⟨fun _ => some ⟨some 3600⟩, 0, fun _ => .fail⟩ "tok" = some ⟨some 3600⟩) ∧
    threshold < 3600 * 1000 - (0 : Int) ∧
    attachesUnchangedNoRefresh ⟨fun _ => some ⟨some 3600⟩, 0, fun _ => .fail⟩
      (fun _ => 200) ⟨some "tok", some "r", some "u"⟩ "tok" :=
  ⟨rfl, rfl, by decide,
   C5_fresh_token_attached_unchanged ⟨fun _ => some ⟨some 3600⟩, 0, fun _ => .fail⟩
     (fun _ => 200) ⟨some "tok", some "r", some "u"⟩ "tok" ⟨some 3600⟩ 3600
     rfl (by decide) rfl rfl (by decide)⟩

/-- C6: a stored access token whose payload cannot be decoded is treated as
valid: resolution succeeds, the token is attached as-is, and the refresh
endpoint is never called. -/
theorem C6_undecodable_token_used_as_is
    (env : Env) (ms : Nat → Nat) (s : Store) (a : String)
    (ha : s.accessToken = some a) (ha' : a ≠ "")
    (hd : env.decode a = none) :
    attachesUnchangedNoRefresh env ms s a := by
  refine apiRequest_of_stable env ms s a (gvat_stable env s a ha ha' ?_) ha'
  intro q hq
  rw [hd] at hq
  cases hq

/-- Witness for C6: an opaque non-JWT credential. -/
theorem C6_witness :
    (Store.accessToken ⟨some "opaque", none, none⟩ = some "opaque") ∧
    (Env.decode ⟨fun _ => none, 0, fun _ => .fail⟩ "opaque" = none) ∧
    attachesUnchangedNoRefresh ⟨fun _ => none, 0, fun _ => .fail⟩
      (fun _ => 200) ⟨some "opaque", none, none⟩ "opaque" :=
  ⟨rfl, rfl,
   C6_undecodable_token_used_as_is ⟨fun _ => none, 0, fun _ => .fail⟩
     (fun _ => 200) ⟨some "opaque", none, none⟩ "opaque" rfl (by decide) rfl⟩

/-- C10: a stored access token that decodes to a payload without a numeric
`exp` claim is treated as fresh (`payload.exp * 1000` is `NaN` and the
staleness comparison is false): it is attached unchanged and the refresh
endpoint is never called. -/
theorem C10_missing_exp_treated_fresh
    (env : Env) (ms : Nat → Nat) (s : Store) (a : String) (p : Payload)
    (ha : s.accessToken = some a) (ha' : a ≠ "")
    (hd : env.decode a = some p) (he : p.exp = none) :
    attachesUnchangedNoRefresh env ms s a := by
  refine apiRequest_of_stable env ms s a (gvat_stable env s a ha ha' ?_) ha'
  intro q hq
  rw [hd] at hq
  cases hq
  simp [isStale, he]

/-- Witness for C10: a decodable payload with no `exp` claim. -/
theorem C10_witness :
    (Store.accessToken ⟨some "tok", some "r", none⟩ = some "tok") ∧
    (Env.decode ⟨fun _ => some ⟨none⟩, 0, fun _ => .fail⟩ "tok" = some ⟨none⟩) ∧
    (Payload.exp ⟨none⟩ = none) ∧
    attachesUnchangedNoRefresh ⟨fun _ => some ⟨none⟩, 0, fun _ => .fail⟩
      (fun _ => 401) ⟨some "tok", some "r", none⟩ "tok" :=
  ⟨rfl, rfl, rfl,
   C10_missing_exp_treated_fresh ⟨fun _ => some ⟨none⟩, 0, fun _ => .fail⟩
     (fun _ => 401) ⟨some "tok", some "r", none⟩ "tok" ⟨none⟩ rfl (by decide) rfl rfl⟩

lemma apiRequest_trace_prefix (env : Env) (ms : Nat → Nat) (s : Store)
    (tok : String) (s1 : Store) (evs1 : List Ev)
    (hg : getValidAccessToken env s = (some tok, s1, evs1)) (ht : tok ≠ "") :
    ∃ rest, (apiRequest env ms true s).2.2 = evs1 ++ Ev.request (some tok) :: rest := by
  by_cases h401 : ms 0 = 401
  · rcases h2 : getValidAccessToken env s1 with ⟨t2, s2, evs2⟩
    cases t2 with
    | none =>
      exact ⟨evs2, by simp [apiRequest, hg, ht, h401, h2]⟩
    | some tok2 =>
      by_cases ht2 : tok2 = ""
      · exact ⟨evs2, by simp [apiRequest, hg, ht, h401, h2, ht2]⟩
      · exact ⟨evs2 ++ [Ev.request (some tok2)],
          by simp [apiRequest, hg, ht, h401, h2, ht2]⟩
  · exact ⟨[], by simp [apiRequest, hg, ht, h401]⟩

/-- C1 boundary counterexample: a stored access token whose decoded
remaining lifetime is exactly the 5-minute threshold (`exp = 300` s,
`now = 0` ms, so `exp * 1000 - now = 300000 = threshold`), with a refresh
token present and a refresh endpoint that would succeed.  The source's
strict `exp - now < 300000` takes the fresh path: the trace holds no
`refresh` call and no `setAccess` — the original claim's "at or under the
threshold" refresh behaviour is false at the boundary. -/
theorem C1_boundary_counterexample :
    (300 : Int) * 1000 - 0 = threshold ∧
    apiRequest ⟨fun _ => some ⟨some 300⟩, 0, fun _ => .ok "new"⟩ (fun _ => 200) true
        ⟨some "tok", some "r", some "u"⟩ =
      (.response 200, ⟨some "tok", some "r", some "u"⟩,
       [.resolve, .request (some "tok")]) := by
  decide

/-- C1 (amended): when the stored access token decodes with strictly less
than 5 minutes of remaining lifetime (including already expired) — the
source's `exp - now < 300000` is a strict comparison, so a remaining
lifetime of exactly 300000 ms takes the fresh path (see
`C1_boundary_counterexample`) — a refresh token is present, and the refresh
endpoint returns a new access token, `apiRequest` calls the refresh endpoint
exactly once before issuing the original request, persists the returned
access token (`setAccess`) and only then attaches it as the bearer
credential of the request. -/
theorem C1_proactive_refresh_before_request
    (env : Env) (ms : Nat → Nat) (s : Store) (a r na : String) (p : Payload) (e : Int)
    (ha : s.accessToken = some a) (ha' : a ≠ "")
    (hd : env.decode a = some p) (he : p.exp = some e)
    (hstale : e * 1000 - env.now < threshold)
    (hr : s.refreshToken = some r) (hr' : r ≠ "")
    (hro : env.refreshOutcome r = .ok na) (hna : na ≠ "") :
    ∃ rest, (apiRequest env ms true s).2.2 =
      Ev.resolve :: Ev.refresh r :: Ev.setAccess na :: Ev.request (some na) :: rest := by
  have hst : isStale p env.now = true := by
    simp [isStale, he]
    exact hstale
  have hg : getValidAccessToken env s =
      (some na, { s with accessToken := some na },
       [.resolve, .refresh r, .setAccess na]) := by
    simp [getValidAccessToken, ha, ha', hd, hst, hr, hr', hro]
  obtain ⟨rest, hrest⟩ := apiRequest_trace_prefix env ms s na _ _ hg hna
  exact ⟨rest, by simpa using hrest⟩

/-- Witness for C1: an expired token, a live refresh token, a successful
refresh. -/
theorem C1_witness :
    (Store.accessToken ⟨some "old", some "r", some "u"⟩ = some "old") ∧
    (Env.decode ⟨fun _ => some ⟨some 0⟩, 1000000, fun _ => .ok "new"⟩ "old" = some ⟨some 0⟩) ∧
    ((0 : Int) * 1000 - 1000000 < threshold) ∧
    (Env.refreshOutcome ⟨fun _ => some ⟨some 0⟩, 1000000, fun _ => .ok "new"⟩ "r" = .ok "new") ∧
    (∃ rest, (apiRequest ⟨fun _ => some ⟨some 0⟩, 1000000, fun _ => .ok "new"⟩
        (fun _ => 200) true ⟨some "old", some "r", some "u"⟩).2.2 =
      Ev.resolve :: Ev.refresh "r" :: Ev.setAccess "new" :: Ev.request (some "new") :: rest) :=
  ⟨rfl, rfl, by decide, rfl,
   C1_proactive_refresh_before_request ⟨fun _ => some ⟨some 0⟩, 1000000, fun _ => .ok "new"⟩
     (fun _ => 200) ⟨some "old", some "r", some "u"⟩ "old" "r" "new" ⟨some 0⟩ 0
     rfl (by decide) rfl rfl (by decide) rfl (by decide) rfl (by decide)⟩

/-- C2: when the first resolution yields a usable token and the first main
request returns 401, `apiRequest` performs token resolution exactly once
more; if it yields no usable token the original 401 response is returned
with no further request, and if it yields a usable token the request is
reissued exactly once and that second response is returned regardless of its
status. -/
theorem C2_single_retry_on_401
    (env : Env) (ms : Nat → Nat) (s : Store) (t : String) (s1 : Store) (evs1 : List Ev)
    (h1 : getValidAccessToken env s = (some t, s1, evs1)) (ht : t ≠ "")
    (h401 : ms 0 = 401) :
    (∀ t2 s2 evs2, getValidAccessToken env s1 = (t2, s2, evs2) → falsyStr t2 = true →
       apiRequest env ms true s =
         (.response 401, s2, evs1 ++ Ev.request (some t) :: evs2)) ∧
    (∀ t2 s2 evs2, getValidAccessToken env s1 = (some t2, s2, evs2) → t2 ≠ "" →
       apiRequest env ms true s =
         (.response (ms 1), s2,
          evs1 ++ Ev.request (some t) :: (evs2 ++ [Ev.request (some t2)]))) := by
  constructor
  · intro t2 s2 evs2 h2 hf
    cases t2 with
    | none => simp [apiRequest, h1, ht, h401, h2]
    | some x =>
      have hx : x = "" := by simpa [falsyStr] using hf
      subst hx
      simp [apiRequest, h1, ht, h401, h2]
  · intro t2 s2 evs2 h2 ht2
    simp [apiRequest, h1, ht, h401, h2, ht2]

/-- Witness for C2: an undecodable (hence always kept) token and a backend
answering 401 to both attempts — the second 401 is returned, no third
attempt appears in the trace. -/
theorem C2_witness :
    (getValidAccessToken ⟨fun _ => none, 0, fun _ => .fail⟩ ⟨some "tok", none, none⟩ =
       (some "tok", ⟨some "tok", none, none⟩, [Ev.resolve])) ∧
    ((fun _ : Nat => 401) 0 = 401) ∧
    apiRequest ⟨fun _ => none, 0, fun _ => .fail⟩ (fun _ => 401) true ⟨some "tok", none, none⟩ =
      (.response 401, ⟨some "tok", none, none⟩,
       [Ev.resolve, Ev.request (some "tok"), Ev.resolve, Ev.request (some "tok")]) := by
  refine ⟨by decide, rfl, ?_⟩
  have h := (C2_single_retry_on_401 ⟨fun _ => none, 0, fun _ => .fail⟩ (fun _ => 401)
      ⟨some "tok", none, none⟩ "tok" ⟨some "tok", none, none⟩ [Ev.resolve]
      (by decide) (by decide) rfl).2 "tok" ⟨some "tok", none, none⟩ [Ev.resolve]
      (by decide) (by decide)
  simpa using h

/-- C4: when the stored access token is stale, a refresh token is present,
and the refresh endpoint answers with a non-success status, all three
credential keys are removed, the original request is never issued (no
`request` event in the trace), and `apiRequest` rejects. -/
theorem C4_refresh_failure_clears_and_aborts
    (env : Env) (ms : Nat → Nat) (s : Store) (a r : String) (p : Payload)
    (ha : s.accessToken = some a) (ha' : a ≠ "")
    (hd : env.decode a = some p) (hst : isStale p env.now = true)
    (hr : s.refreshToken = some r) (hr' : r ≠ "")
    (hro : env.refreshOutcome r = .fail) :
    apiRequest env ms true s =
      (.thrown, clearedStore,
       [.resolve, .refresh r, .clearAll, .redirect, .redirect]) := by
  have hg : getValidAccessToken env s =
      (none, clearedStore, [.resolve, .refresh r, .clearAll, .redirect]) := by
    simp [getValidAccessToken, ha, ha', hd, hst, hr, hr', hro]
  simp [apiRequest, hg]

/-- Witness for C4: an expired token whose refresh is rejected. -/
theorem C4_witness :
    (isStale ⟨some 0⟩ 1000000 = true) ∧
    (Env.refreshOutcome ⟨fun _ => some ⟨some 0⟩, 1000000, fun _ => .fail⟩ "r" = .fail) ∧
    apiRequest ⟨fun _ => some ⟨some 0⟩, 1000000, fun _ => .fail⟩ (fun _ => 200) true
        ⟨some "old", some "r", some "u"⟩ =
      (.thrown, clearedStore,
       [.resolve, .refresh "r", .clearAll, .redirect, .redirect]) :=
  ⟨by decide, rfl,
   C4_refresh_failure_clears_and_aborts ⟨fun _ => some ⟨some 0⟩, 1000000, fun _ => .fail⟩
     (fun _ => 200) ⟨some "old", some "r", some "u"⟩ "old" "r" ⟨some 0⟩
     rfl (by decide) rfl (by decide) rfl (by decide) rfl⟩

/-- C7 (code behaviour at the failing input): the `try` block of
`getValidAccessToken` spans the refresh `fetch`, so when the refresh call
fails at the transport level the `catch { return accessToken }` arm swallows
the rejection: resolution returns the stale token and the main request is
issued with it, and `apiRequest` resolves with that response instead of
rejecting. -/
theorem C7_transport_failure_swallowed :
    apiRequest ⟨fun _ => some ⟨some 0⟩, 1000000, fun _ => .netError⟩ (fun _ => 200) true
        ⟨some "stale.tok", some "rtok", some "u"⟩ =
      (.response 200, ⟨some "stale.tok", some "rtok", some "u"⟩,
       [.resolve, .refresh "rtok", .request (some "stale.tok")]) := by
  decide

/-- C8 counterexample: a stale decodable access token with no refresh token
stored.  `apiRequest` rejects, but the credential set is NOT destroyed: the
store is returned unchanged, still holding the access token and the user
record. -/
theorem C8_counterexample :
    apiRequest ⟨fun _ => some ⟨some 0⟩, 1000000, fun _ => .ok "x"⟩ (fun _ => 200) true
        ⟨some "stale.tok", none, some "u"⟩ =
      (.thrown, ⟨some "stale.tok", none, some "u"⟩, [.resolve, .redirect]) ∧
    (⟨some "stale.tok", none, some "u"⟩ : Store) ≠ clearedStore := by
  decide

/-- C8 (amended): when a refresh is needed (stored access token decodes as
stale) and no refresh token is present, token resolution fails and
`apiRequest` rejects with a redirect to the sign-in view, but the credential
store is left untouched — the access token and user record are not removed. -/
theorem C8_no_refresh_token_leaves_store
    (env : Env) (ms : Nat → Nat) (s : Store) (a : String) (p : Payload)
    (ha : s.accessToken = some a) (ha' : a ≠ "")
    (hd : env.decode a = some p) (hst : isStale p env.now = true)
    (hfr : falsyStr s.refreshToken = true) :
    apiRequest env ms true s = (.thrown, s, [.resolve, .redirect]) := by
  have hg : getValidAccessToken env s = (none, s, [.resolve]) := by
    cases hr : s.refreshToken with
    | none => simp [getValidAccessToken, ha, ha', hd, hst, hr]
    | some r =>
      have : r = "" := by
        rw [hr] at hfr
        simpa [falsyStr] using hfr
      subst this
      simp [getValidAccessToken, ha, ha', hd, hst, hr]
  simp [apiRequest, hg]

/-- Witness for the amended C8. -/
theorem C8_witness :
    (isStale ⟨some 0⟩ 1000000 = true) ∧
    (falsyStr (Store.refreshToken ⟨some "stale.tok", none, some "u"⟩) = true) ∧
    apiRequest ⟨fun _ => some ⟨some 0⟩, 1000000, fun _ => .ok "x"⟩ (fun _ => 200) true
        ⟨some "stale.tok", none, some "u"⟩ =
      (.thrown, ⟨some "stale.tok", none, some "u"⟩, [.resolve, .redirect]) :=
  ⟨by decide, by decide,
   C8_no_refresh_token_leaves_store ⟨fun _ => some ⟨some 0⟩, 1000000, fun _ => .ok "x"⟩
     (fun _ => 200) ⟨some "stale.tok", none, some "u"⟩ "stale.tok" ⟨some 0⟩
     rfl (by decide) rfl (by decide) (by decide)⟩

lemma getValidAccessToken_paired (env : Env) (s : Store) (h : paired s) :
    paired (getValidAccessToken env s).2.1 := by
  obtain ⟨a, r, u⟩ := s
  cases a with
  | none => simpa [getValidAccessToken] using h
  | some a =>
    by_cases ha : a = ""
    · simpa [getValidAccessToken, ha] using h
    · cases hd : env.decode a with
      | none => simpa [getValidAccessToken, ha, hd] using h
      | some p =>
        by_cases hst : isStale p env.now
        · cases r with
          | none => simpa [getValidAccessToken, ha, hd, hst] using h
          | some r =>
            by_cases hr : r = ""
            · simpa [getValidAccessToken, ha, hd, hst, hr] using h
            · cases hro : env.refreshOutcome r with
              | ok na => simp [getValidAccessToken, ha, hd, hst, hr, hro, paired]
              | fail =>
                simp [getValidAccessToken, ha, hd, hst, hr, hro, paired, clearedStore]
              | netError => simpa [getValidAccessToken, ha, hd, hst, hr, hro] using h
        · simpa [getValidAccessToken, ha, hd, hst] using h

lemma apiRequest_paired (env : Env) (ms : Nat → Nat) (ra : Bool) (s : Store)
    (h : paired s) : paired (apiRequest env ms ra s).2.1 := by
  cases ra with
  | false => simpa [apiRequest] using h
  | true =>
    rcases hg : getValidAccessToken env s with ⟨t, s1, evs1⟩
    have h1 : paired s1 := by
      have hp := getValidAccessToken_paired env s h
      rw [hg] at hp
      exact hp
    cases t with
    | none => simpa [apiRequest, hg] using h1
    | some tok =>
      by_cases htok : tok = ""
      · simpa [apiRequest, hg, htok] using h1
      · by_cases h401 : ms 0 = 401
        · rcases hg2 : getValidAccessToken env s1 with ⟨t2, s2, evs2⟩
          have h2 : paired s2 := by
            have hp := getValidAccessToken_paired env s1 h1
            rw [hg2] at hp
            exact hp
          cases t2 with
          | none => simpa [apiRequest, hg, htok, h401, hg2] using h2
          | some tok2 =>
            by_cases ht2 : tok2 = ""
            · simpa [apiRequest, hg, htok, h401, hg2, ht2] using h2
            · simpa [apiRequest, hg, htok, h401, hg2, ht2] using h2
        · simpa [apiRequest, hg, htok, h401] using h1

lemma refreshToken_paired (ro : String → RefreshOutcome) (s : Store) (h : paired s) :
    paired (refreshToken ro s).1 := by
  obtain ⟨a, r, u⟩ := s
  cases r with
  | none => simpa [refreshToken] using h
  | some r =>
    by_cases hr : r = ""
    · simpa [refreshToken, hr] using h
    · cases hro : ro r with
      | ok na => simp [refreshToken, hr, hro, paired]
      | fail => simp [refreshToken, hr, hro, paired, clearedStore]
      | netError => simp [refreshToken, hr, hro, paired, clearedStore]

/-- C9: every credential-store mutator — `login`, `logout`, token resolution
inside `apiRequest` (proactive and reactive refresh), and the background
`refreshToken` cycle — preserves the pairing invariant: if the access and
refresh tokens are both present or both absent before the operation, they
are again both present or both absent after it. -/
theorem C9_credential_pairing
    (env : Env) (ms : Nat → Nat) (ra : Bool) (lo : LoginOutcome)
    (ro : String → RefreshOutcome) (s : Store) (h : paired s) :
    paired (login lo s).1 ∧ paired (logout s) ∧
    paired (getValidAccessToken env s).2.1 ∧
    paired (apiRequest env ms ra s).2.1 ∧
    paired (refreshToken ro s).1 := by
  refine ⟨?_, ?_, getValidAccessToken_paired env s h,
    apiRequest_paired env ms ra s h, refreshToken_paired ro s h⟩
  · cases lo with
    | ok a r u => simp [login, paired]
    | fail => simpa [login] using h
    | netError => simpa [login] using h
  · simp [logout, paired, clearedStore]

/-- Witness for C9: a fully populated store, an expired token, a rejected
refresh — every operation lands in a paired store. -/
theorem C9_witness :
    paired ⟨some "a", some "r", some "u"⟩ ∧
    (paired (login (.ok "na" "nr" "nu") ⟨some "a", some "r", some "u"⟩).1 ∧
     paired (logout ⟨some "a", some "r", some "u"⟩) ∧
     paired (getValidAccessToken ⟨fun _ => some ⟨some 0⟩, 1000000, fun _ => .fail⟩
        ⟨some "a", some "r", some "u"⟩).2.1 ∧
     paired (apiRequest ⟨fun _ => some ⟨some 0⟩, 1000000, fun _ => .fail⟩ (fun _ => 200) true
        ⟨some "a", some "r", some "u"⟩).2.1 ∧
     paired (refreshToken (fun _ => .fail) ⟨some "a", some "r", some "u"⟩).1) :=
  ⟨by unfold paired; decide,
   C9_credential_pairing ⟨fun _ => some ⟨some 0⟩, 1000000, fun _ => .fail⟩ (fun _ => 200)
     true (.ok "na" "nr" "nu") (fun _ => .fail) ⟨some "a", some "r", some "u"⟩
     (by unfold paired; decide)⟩
